import Mathlib

/-!
Verification development for the two pipelines of this repository:
a notification-dispatch pipeline (ejercicio1) and a report-generation
pipeline (ejercicio2).  Each pipeline is shallowly embedded: Python
dictionaries become structures with `Option` fields for optional keys,
exceptions become `Except`, the mutable history list becomes explicit
state passing, `datetime.now()` becomes an injected timestamp string,
and monetary floats (only ever summed and displayed to two decimals)
become exact integer cents.
-/

namespace Notif

/-- Customer dictionary: `name` is read unconditionally by the
orchestrator; the three contact keys may be absent (a sender reading
an absent key raises, modelled as `missingField`). -/
structure CustomerRecord where
  name : String
  email : Option String
  phone : Option String
  device_id : Option String
  deriving DecidableEq

structure OrderData where
  order_id : String
  customer : CustomerRecord
  total : String
  deriving DecidableEq

/-- A message dictionary: both keys may in principle be absent. -/
structure Message where
  subject : Option String
  body : Option String
  deriving DecidableEq

/-- Entry appended to `notifications_sent` by a sender. -/
structure LogEntry where
  type : String
  «to» : String
  message : String
  timestamp : String
  deriving DecidableEq

inductive NotifError where
  | unsupportedType (tag : String)
  | missingField (field : String)
  deriving DecidableEq

inductive IMessageStrategy where
  | emailMessageStrategy
  | shortMessageStrategy
  deriving DecidableEq

def IMessageStrategy.create_message :
    IMessageStrategy → String → String → String → Message
  | .emailMessageStrategy, order_id, customer_name, total =>
      ⟨some ("Confirmación de Pedido #" ++ order_id),
       some ("Estimado " ++ customer_name ++ ", su pedido #" ++ order_id ++
             " por $" ++ total ++ " ha sido confirmado.")⟩
  | .shortMessageStrategy, order_id, _, total =>
      ⟨none,
       some ("Pedido #" ++ order_id ++ " confirmado. Total: $" ++ total ++
             ". Gracias por su compra!")⟩

inductive INotificationSender where
  | emailSender
  | smsSender
  | pushSender
  deriving DecidableEq

/-- `send` reads the channel's contact key first, then the body key,
matching the source's access order; `now` is the injected timestamp. -/
def INotificationSender.send :
    INotificationSender → CustomerRecord → Message → String →
    Except NotifError LogEntry
  | .emailSender, customer_data, message_data, now =>
      match customer_data.email with
      | none => .error (.missingField "email")
      | some email =>
        match message_data.body with
        | none => .error (.missingField "body")
        | some body => .ok ⟨"email", email, body, now⟩
  | .smsSender, customer_data, message_data, now =>
      match customer_data.phone with
      | none => .error (.missingField "phone")
      | some phone =>
        match message_data.body with
        | none => .error (.missingField "body")
        | some body => .ok ⟨"sms", phone, body, now⟩
  | .pushSender, customer_data, message_data, now =>
      match customer_data.device_id with
      | none => .error (.missingField "device_id")
      | some device_id =>
        match message_data.body with
        | none => .error (.missingField "body")
        | some body => .ok ⟨"push", device_id, body, now⟩

def NotificationFactory.get_sender (type_str : String) :
    Except NotifError INotificationSender :=
  if type_str = "email" then .ok .emailSender
  else if type_str = "sms" then .ok .smsSender
  else if type_str = "push" then .ok .pushSender
  else .error (.unsupportedType type_str)

def NotificationFactory.get_strategy (type_str : String) : IMessageStrategy :=
  if type_str = "email" then .emailMessageStrategy
  else if type_str = "sms" then .shortMessageStrategy
  else if type_str = "push" then .shortMessageStrategy
  else .shortMessageStrategy

/-- The per-channel loop of `process_order`: the history is threaded
explicitly; the first failure aborts the remaining channels and is
returned alongside the history accumulated so far. -/
def processChannels (order_id : String) (customer : CustomerRecord)
    (total : String) (now : String) :
    List String → List LogEntry → List LogEntry × Option NotifError
  | [], hist => (hist, none)
  | type_str :: rest, hist =>
    match NotificationFactory.get_sender type_str with
    | .error e => (hist, some e)
    | .ok sender =>
      let message_strategy := NotificationFactory.get_strategy type_str
      let msg_data := message_strategy.create_message order_id customer.name total
      match sender.send customer msg_data now with
      | .error e => (hist, some e)
      | .ok log_entry =>
        processChannels order_id customer total now rest (hist ++ [log_entry])

def OrderNotificationSystem.process_order (hist : List LogEntry)
    (order_data : OrderData) (notification_types : List String) (now : String) :
    List LogEntry × Option NotifError :=
  processChannels order_data.order_id order_data.customer order_data.total now
    notification_types hist

/-- Tag is one of the three supported channels. -/
def supportedTag (t : String) : Bool :=
  t == "email" || t == "sms" || t == "push"

/-- The customer field a given channel's sender reads. -/
def contactField (c : CustomerRecord) (t : String) : Option String :=
  if t = "email" then c.email
  else if t = "sms" then c.phone
  else if t = "push" then c.device_id
  else none

/-- One successful loop iteration: for a supported channel whose contact
field is present, the iteration appends exactly one log entry, whose
type is the channel tag and whose recipient is that contact field. -/
theorem processChannels_cons_ok (order_id : String) (customer : CustomerRecord)
    (total now t : String) (rest : List String) (hist : List LogEntry)
    (hsup : supportedTag t = true)
    (hc : (contactField customer t).isSome = true) :
    ∃ entry : LogEntry, entry.type = t ∧ some entry.«to» = contactField customer t ∧
      processChannels order_id customer total now (t :: rest) hist =
        processChannels order_id customer total now rest (hist ++ [entry]) := by
  have h3 : t = "email" ∨ t = "sms" ∨ t = "push" := by
    simp only [supportedTag, Bool.or_eq_true, beq_iff_eq, or_assoc] at hsup
    exact hsup
  rcases h3 with h | h | h <;> subst h
  · have hc2 : customer.email.isSome = true := by simpa [contactField] using hc
    obtain ⟨v, hv⟩ := Option.isSome_iff_exists.mp hc2
    refine ⟨⟨"email", v,
      "Estimado " ++ customer.name ++ ", su pedido #" ++ order_id ++
        " por $" ++ total ++ " ha sido confirmado.", now⟩, rfl,
      by simp [contactField, hv], ?_⟩
    simp [processChannels, NotificationFactory.get_sender,
      NotificationFactory.get_strategy, IMessageStrategy.create_message,
      INotificationSender.send, hv]
  · have hc2 : customer.phone.isSome = true := by simpa [contactField] using hc
    obtain ⟨v, hv⟩ := Option.isSome_iff_exists.mp hc2
    refine ⟨⟨"sms", v,
      "Pedido #" ++ order_id ++ " confirmado. Total: $" ++ total ++
        ". Gracias por su compra!", now⟩, rfl,
      by simp [contactField, hv], ?_⟩
    simp [processChannels, NotificationFactory.get_sender,
      NotificationFactory.get_strategy, IMessageStrategy.create_message,
      INotificationSender.send, hv]
  · have hc2 : customer.device_id.isSome = true := by
      simpa [contactField] using hc
    obtain ⟨v, hv⟩ := Option.isSome_iff_exists.mp hc2
    refine ⟨⟨"push", v,
      "Pedido #" ++ order_id ++ " confirmado. Total: $" ++ total ++
        ". Gracias por su compra!", now⟩, rfl,
      by simp [contactField, hv], ?_⟩
    simp [processChannels, NotificationFactory.get_sender,
      NotificationFactory.get_strategy, IMessageStrategy.create_message,
      INotificationSender.send, hv]

/-- Iterating over a block of supported, deliverable channels appends one
entry per channel and then continues with the remaining channels. -/
theorem processChannels_unsupported (order_id : String) (customer : CustomerRecord)
    (total now bad : String) (post : List String)
    (hbad : supportedTag bad = false) (pre : List String) :
    ∀ hist : List LogEntry,
      (pre.all fun t =>
        supportedTag t && (contactField customer t).isSome) = true →
      ∃ entries : List LogEntry, entries.length = pre.length ∧
        processChannels order_id customer total now (pre ++ bad :: post) hist =
          (hist ++ entries, some (NotifError.unsupportedType bad)) := by
  induction pre with
  | nil =>
    intro hist _
    have h1 : ¬ bad = "email" := fun h => by
      subst h; exact absurd hbad (by decide)
    have h2 : ¬ bad = "sms" := fun h => by
      subst h; exact absurd hbad (by decide)
    have h3 : ¬ bad = "push" := fun h => by
      subst h; exact absurd hbad (by decide)
    refine ⟨[], rfl, ?_⟩
    simp [processChannels, NotificationFactory.get_sender, h1, h2, h3]
  | cons t pre ih =>
    intro hist hpre
    simp only [List.all_cons, Bool.and_eq_true] at hpre
    obtain ⟨⟨hsup, hc⟩, htail⟩ := hpre
    obtain ⟨entry, _, _, heq⟩ := processChannels_cons_ok order_id customer total
      now t (pre ++ bad :: post) hist hsup hc
    obtain ⟨entries, hlen, hrest⟩ := ih (hist ++ [entry]) htail
    refine ⟨entry :: entries, by simp [hlen], ?_⟩
    rw [List.cons_append, heq, hrest]
    simp

/-- C1 (amended): if every supported channel before the first unsupported
tag has its contact field present, `process_order` on `pre ++ bad :: post`
fails with `unsupportedType bad`, appends exactly one entry per channel of
`pre` (and none for `bad` or `post`), and the previously appended entries
remain in the history. -/
theorem claim_C1_unsupported_tag_fails_fast (order : OrderData)
    (hist : List LogEntry) (now bad : String) (pre post : List String)
    (hpre : (pre.all fun t =>
      supportedTag t && (contactField order.customer t).isSome) = true)
    (hbad : supportedTag bad = false) :
    ∃ entries : List LogEntry, entries.length = pre.length ∧
      OrderNotificationSystem.process_order hist order (pre ++ bad :: post) now =
        (hist ++ entries, some (NotifError.unsupportedType bad)) := by
  unfold OrderNotificationSystem.process_order
  exact processChannels_unsupported order.order_id order.customer order.total
    now bad post hbad pre hist hpre

/-- A demonstration order whose customer record has every contact field. -/
def demoOrder : OrderData :=
  ⟨"ORD-001", ⟨"Ana", some "ana@mail.com", some "+34-600-123-456",
    some "DEVICE-ABC"⟩, "150.5"⟩

/-- Witness for C1 (amended) at a concrete order and channel list. -/
theorem claim_C1_witness :
    ((["email"] : List String).all fun t =>
      supportedTag t && (contactField demoOrder.customer t).isSome) = true ∧
    supportedTag "fax" = false ∧
    ∃ entries : List LogEntry, entries.length = (["email"] : List String).length ∧
      OrderNotificationSystem.process_order [] demoOrder
          (["email"] ++ "fax" :: ["sms"]) "T0" =
        ([] ++ entries, some (NotifError.unsupportedType "fax")) :=
  ⟨by decide, by decide,
    claim_C1_unsupported_tag_fails_fast demoOrder [] "T0" "fax" ["email"] ["sms"]
      (by decide) (by decide)⟩

/-- An order whose customer record is missing the email contact field. -/
def cexOrder : OrderData :=
  ⟨"ORD-404", ⟨"Bea", none, some "+34-600-000-000", some "DEV-1"⟩, "10.0"⟩

/-- C1 as stated is false: with a customer lacking the email field and
channels `["email", "fax"]`, the call fails with `missingField "email"`
at the supported channel, not with `unsupportedType` at the first
unsupported tag `"fax"`. -/
theorem claim_C1_counterexample :
    supportedTag "fax" = false ∧ supportedTag "email" = true ∧
    OrderNotificationSystem.process_order [] cexOrder ["email", "fax"] "T0" =
      ([], some (NotifError.missingField "email")) ∧
    (OrderNotificationSystem.process_order [] cexOrder ["email", "fax"] "T0").2 ≠
      some (NotifError.unsupportedType "fax") := by decide

/-- C4: for a supported channel whose contact field is present in the
customer record, `process_order` with the single-element channel list
appends exactly one history entry, whose type is the channel tag and
whose recipient is the corresponding customer field. -/
theorem claim_C4_single_channel_appends_one (hist : List LogEntry)
    (order : OrderData) (C now : String)
    (hsup : supportedTag C = true)
    (hc : (contactField order.customer C).isSome = true) :
    ∃ entry : LogEntry,
      OrderNotificationSystem.process_order hist order [C] now =
        (hist ++ [entry], none) ∧
      entry.type = C ∧ some entry.«to» = contactField order.customer C := by
  obtain ⟨entry, ht, hto, heq⟩ := processChannels_cons_ok order.order_id
    order.customer order.total now C [] hist hsup hc
  refine ⟨entry, ?_, ht, hto⟩
  unfold OrderNotificationSystem.process_order
  rw [heq]
  rfl

/-- Witness for C4 at the email channel of the demonstration order. -/
theorem claim_C4_witness :
    supportedTag "email" = true ∧
    (contactField demoOrder.customer "email").isSome = true ∧
    ∃ entry : LogEntry,
      OrderNotificationSystem.process_order [] demoOrder ["email"] "T0" =
        ([] ++ [entry], none) ∧
      entry.type = "email" ∧
      some entry.«to» = contactField demoOrder.customer "email" :=
  ⟨by decide, by decide,
    claim_C4_single_channel_appends_one [] demoOrder "email" "T0"
      (by decide) (by decide)⟩

/-- C9: the message-strategy lookup is total; any unsupported tag yields
the short-message strategy, whose messages have a body and no subject,
while the email tag's strategy yields both a subject and a body. -/
theorem claim_C9_strategy_lookup_total (tag order_id customer_name total : String)
    (h : supportedTag tag = false) :
    NotificationFactory.get_strategy tag = IMessageStrategy.shortMessageStrategy ∧
    ((NotificationFactory.get_strategy tag).create_message
        order_id customer_name total).body.isSome = true ∧
    ((NotificationFactory.get_strategy tag).create_message
        order_id customer_name total).subject = none ∧
    ((NotificationFactory.get_strategy "email").create_message
        order_id customer_name total).subject.isSome = true ∧
    ((NotificationFactory.get_strategy "email").create_message
        order_id customer_name total).body.isSome = true := by
  have h1 : ¬ tag = "email" := fun hh => by
    subst hh; exact absurd h (by decide)
  have h2 : ¬ tag = "sms" := fun hh => by
    subst hh; exact absurd h (by decide)
  have h3 : ¬ tag = "push" := fun hh => by
    subst hh; exact absurd h (by decide)
  refine ⟨?_, ?_, ?_, ?_, ?_⟩ <;>
    simp [NotificationFactory.get_strategy, h1, h2, h3,
      IMessageStrategy.create_message]

/-- Witness for C9 at the unsupported tag `"fax"`. -/
theorem claim_C9_witness :
    supportedTag "fax" = false ∧
    (NotificationFactory.get_strategy "fax" = IMessageStrategy.shortMessageStrategy ∧
    ((NotificationFactory.get_strategy "fax").create_message
        "ORD-001" "Ana" "150.5").body.isSome = true ∧
    ((NotificationFactory.get_strategy "fax").create_message
        "ORD-001" "Ana" "150.5").subject = none ∧
    ((NotificationFactory.get_strategy "email").create_message
        "ORD-001" "Ana" "150.5").subject.isSome = true ∧
    ((NotificationFactory.get_strategy "email").create_message
        "ORD-001" "Ana" "150.5").body.isSome = true) :=
  ⟨by decide, claim_C9_strategy_lookup_total "fax" "ORD-001" "Ana" "150.5" (by decide)⟩

end Notif

namespace Reporting

/-- One sale record: monetary amount in exact cents. -/
structure Sale where
  product : String
  amount : Nat
  deriving DecidableEq

structure InventoryItem where
  name : String
  quantity : Nat
  category : Option String
  deriving DecidableEq

/-- The variant-shaped data payload: each generator reads only the keys
it needs; an absent key is an absent dictionary entry. Monetary values
(`income`, `expenses`) are in exact cents. -/
structure ReportData where
  period : Option String
  sales : Option (List Sale)
  items : Option (List InventoryItem)
  income : Option Nat
  expenses : Option Nat
  deriving DecidableEq

inductive ReportError where
  | missingField (field : String)
  deriving DecidableEq

def eqLine60 : String := String.mk (List.replicate 60 '=')

def dashLine60 : String := String.mk (List.replicate 60 '-')

/-- Two-digit zero-padded rendering of a number below 100. -/
def pad2 (n : Nat) : String :=
  if n < 10 then "0" ++ toString n else toString n

/-- Two-decimal display of an exact amount of cents. -/
def fmt2 (cents : Nat) : String :=
  toString (cents / 100) ++ "." ++ pad2 (cents % 100)

/-- Two-decimal display of a signed amount of cents. -/
def fmt2i (c : Int) : String :=
  if c < 0 then "-" ++ fmt2 c.natAbs else fmt2 c.natAbs

/-- The detail line the sales generator emits for one sale. -/
def saleLine (s : Sale) : String :=
  "  • Producto: " ++ s.product ++ " - $" ++ fmt2 s.amount ++ "\n"

/-- The detail line the inventory generator emits for one item. -/
def itemLine (i : InventoryItem) : String :=
  "  • " ++ i.name ++ " (" ++ i.category.getD "General" ++ "): " ++
    toString i.quantity ++ " unidades\n"

/-- Sales report: optional period line, total as a running sum over the
sales list, transaction count, then one detail line per sale appended in
input order; `now` is the injected generation timestamp. -/
def SalesGenerator.generate (now : String) (data : ReportData) :
    Except ReportError String :=
  match data.sales with
  | none => Except.error (ReportError.missingField "sales")
  | some sales =>
    let text := eqLine60 ++ "\n" ++ "           REPORTE DE VENTAS\n" ++
      eqLine60 ++ "\n" ++ "Fecha de generación: " ++ now ++ "\n\n"
    let text := match data.period with
      | some p => text ++ "Periodo: " ++ p ++ "\n"
      | none => text
    let total := sales.foldl (fun acc s => acc + s.amount) 0
    let text := text ++ "Total de ventas: $" ++ fmt2 total ++ "\n" ++
      "Número de transacciones: " ++ toString sales.length ++ "\n\n" ++
      "Detalle de ventas:\n" ++ dashLine60 ++ "\n"
    Except.ok (sales.foldl (fun acc s => acc ++ saleLine s) text)

/-- Inventory report: total units as a running sum of quantities, the
count of the set of category labels (missing categories defaulting to
"General"), then one detail line per item appended in input order. -/
def InventoryGenerator.generate (now : String) (data : ReportData) :
    Except ReportError String :=
  match data.items with
  | none => Except.error (ReportError.missingField "items")
  | some items =>
    let text := eqLine60 ++ "\n" ++ "           REPORTE DE INVENTARIO\n" ++
      eqLine60 ++ "\n" ++ "Fecha de generación: " ++ now ++ "\n\n"
    let total_items := items.foldl (fun acc i => acc + i.quantity) 0
    let categories := (items.map fun i => i.category.getD "General").toFinset
    let text := text ++ "Total de productos: " ++ toString total_items ++ "\n" ++
      "Categorías: " ++ toString categories.card ++ "\n\n" ++
      "Inventario actual:\n" ++ dashLine60 ++ "\n"
    Except.ok (items.foldl (fun acc i => acc ++ itemLine i) text)

/-- Financial report: reads `income` then `expenses`; balance is their
signed difference. -/
def FinancialGenerator.generate (now : String) (data : ReportData) :
    Except ReportError String :=
  match data.income with
  | none => Except.error (ReportError.missingField "income")
  | some income =>
    match data.expenses with
    | none => Except.error (ReportError.missingField "expenses")
    | some expenses =>
      Except.ok (eqLine60 ++ "\n" ++ "           REPORTE FINANCIERO\n" ++
        eqLine60 ++ "\n" ++ "Fecha de generación: " ++ now ++ "\n\n" ++
        "Ingresos: $" ++ fmt2 income ++ "\n" ++
        "Gastos: $" ++ fmt2 expenses ++ "\n" ++
        "Balance: $" ++ fmt2i ((income : Int) - (expenses : Int)) ++ "\n")

inductive ContentGenerator where
  | salesGenerator
  | inventoryGenerator
  | financialGenerator
  deriving DecidableEq

def ContentGenerator.generate :
    ContentGenerator → String → ReportData → Except ReportError String
  | .salesGenerator, now, data => SalesGenerator.generate now data
  | .inventoryGenerator, now, data => InventoryGenerator.generate now data
  | .financialGenerator, now, data => FinancialGenerator.generate now data

inductive ReportFormatter where
  | pdfFormatter
  | excelFormatter
  | htmlFormatter
  deriving DecidableEq

def ReportFormatter.format : ReportFormatter → String → String
  | .pdfFormatter, text => "[PDF FORMAT]\n" ++ text ++ "\n[END PDF]"
  | .excelFormatter, text => "[EXCEL FORMAT]\n" ++ text ++ "\n[END EXCEL]"
  | .htmlFormatter, text => "<html><body><pre>" ++ text ++ "</pre></body></html>"

/-- Delivery channels only print to the console; they carry no effect on
the result or the history in this embedding. -/
inductive DeliveryChannel where
  | emailDelivery
  | downloadDelivery
  | cloudDelivery
  deriving DecidableEq

def ReportFactory.get_generator (report_type : String) : Option ContentGenerator :=
  if report_type = "sales" then some .salesGenerator
  else if report_type = "inventory" then some .inventoryGenerator
  else if report_type = "financial" then some .financialGenerator
  else none

def ReportFactory.get_formatter (output_format : String) : ReportFormatter :=
  if output_format = "pdf" then .pdfFormatter
  else if output_format = "excel" then .excelFormatter
  else if output_format = "html" then .htmlFormatter
  else .htmlFormatter

def ReportFactory.get_delivery (delivery_method : String) : DeliveryChannel :=
  if delivery_method = "email" then .emailDelivery
  else if delivery_method = "download" then .downloadDelivery
  else if delivery_method = "cloud" then .cloudDelivery
  else .downloadDelivery

/-- Entry appended to `reports_generated` after a successful run. -/
structure ReportLogEntry where
  type : String
  format : String
  delivery : String
  timestamp : String
  deriving DecidableEq

/-- The orchestrator: resolves all three capabilities, aborts with a null
result when no generator exists, propagates a generator failure, and
otherwise formats, delivers (console-only effect) and appends one history
entry recording the caller-supplied tags. `genNow`/`logNow` are the two
injected timestamps (generation and history). -/
def ReportSystem.generate_report (hist : List ReportLogEntry)
    (report_type : String) (data : ReportData) (output_format : String)
    (delivery_method : String) (genNow : String) (logNow : String) :
    List ReportLogEntry × Except ReportError (Option String) :=
  let generator := ReportFactory.get_generator report_type
  let formatter := ReportFactory.get_formatter output_format
  let _delivery := ReportFactory.get_delivery delivery_method
  match generator with
  | none => (hist, Except.ok none)
  | some g =>
    match g.generate genNow data with
    | Except.error e => (hist, Except.error e)
    | Except.ok raw_content =>
      let final_document := formatter.format raw_content
      (hist ++ [⟨report_type, output_format, delivery_method, logNow⟩],
        Except.ok (some final_document))

theorem exists_ok_of_isOk {ε α : Type} {x : Except ε α} (h : x.isOk = true) :
    ∃ b, x = Except.ok b := by
  cases x with
  | error e => simp [Except.isOk, Except.toBool] at h
  | ok b => exact ⟨b, rfl⟩

/-- C2: an unrecognized report type makes `generate_report` return a
null result, raise nothing, and leave the history exactly unchanged;
no later pipeline stage runs. -/
theorem claim_C2_unknown_type_noop (hist : List ReportLogEntry)
    (report_type : String) (data : ReportData)
    (output_format delivery_method genNow logNow : String)
    (h1 : report_type ≠ "sales") (h2 : report_type ≠ "inventory")
    (h3 : report_type ≠ "financial") :
    ReportSystem.generate_report hist report_type data output_format
      delivery_method genNow logNow = (hist, Except.ok none) := by
  simp [ReportSystem.generate_report, ReportFactory.get_generator, h1, h2, h3]

/-- Witness for C2 at the unknown report type `"payroll"`. -/
theorem claim_C2_witness :
    ("payroll" : String) ≠ "sales" ∧ ("payroll" : String) ≠ "inventory" ∧
    ("payroll" : String) ≠ "financial" ∧
    ReportSystem.generate_report [] "payroll" ⟨none, none, none, none, none⟩
      "pdf" "email" "T0" "T1" = ([], Except.ok none) :=
  ⟨by decide, by decide, by decide,
    claim_C2_unknown_type_noop [] "payroll" ⟨none, none, none, none, none⟩
      "pdf" "email" "T0" "T1" (by decide) (by decide) (by decide)⟩

/-- C3: when the resolved generator fails (a required payload field is
absent), `generate_report` propagates that failure, the delivery stage
does not run, and the history is unchanged. -/
theorem claim_C3_generator_failure_atomic (hist : List ReportLogEntry)
    (report_type : String) (data : ReportData)
    (output_format delivery_method genNow logNow : String)
    (g : ContentGenerator) (e : ReportError)
    (h1 : ReportFactory.get_generator report_type = some g)
    (h2 : g.generate genNow data = Except.error e) :
    ReportSystem.generate_report hist report_type data output_format
      delivery_method genNow logNow = (hist, Except.error e) := by
  simp [ReportSystem.generate_report, h1, h2]

/-- Witness for C3: a sales report over a payload lacking the `sales`
field fails with `missingField "sales"` and mutates nothing. -/
theorem claim_C3_witness :
    ReportFactory.get_generator "sales" = some ContentGenerator.salesGenerator ∧
    ContentGenerator.generate ContentGenerator.salesGenerator "T0"
      ⟨none, none, none, none, none⟩ =
      Except.error (ReportError.missingField "sales") ∧
    ReportSystem.generate_report [] "sales" ⟨none, none, none, none, none⟩
      "pdf" "email" "T0" "T1" =
      ([], Except.error (ReportError.missingField "sales")) :=
  ⟨by decide, by rfl,
    claim_C3_generator_failure_atomic [] "sales" ⟨none, none, none, none, none⟩
      "pdf" "email" "T0" "T1" ContentGenerator.salesGenerator
      (ReportError.missingField "sales") (by decide) (by rfl)⟩

/-- C5: for a recognized report type whose generator succeeds, the call
returns the raw content wrapped in the requested format's envelope,
and appends exactly one history entry. -/
theorem claim_C5_success_wraps_and_logs (hist : List ReportLogEntry)
    (report_type : String) (data : ReportData)
    (output_format delivery_method genNow logNow : String)
    (g : ContentGenerator)
    (h1 : ReportFactory.get_generator report_type = some g)
    (h2 : (g.generate genNow data).isOk = true) :
    ∃ raw : String,
      g.generate genNow data = Except.ok raw ∧
      ReportSystem.generate_report hist report_type data output_format
          delivery_method genNow logNow =
        (hist ++ [⟨report_type, output_format, delivery_method, logNow⟩],
          Except.ok (some ((ReportFactory.get_formatter output_format).format raw))) ∧
      (ReportSystem.generate_report hist report_type data output_format
          delivery_method genNow logNow).1.length = hist.length + 1 ∧
      (output_format = "pdf" →
        (ReportFactory.get_formatter output_format).format raw =
          "[PDF FORMAT]\n" ++ raw ++ "\n[END PDF]") ∧
      (output_format = "excel" →
        (ReportFactory.get_formatter output_format).format raw =
          "[EXCEL FORMAT]\n" ++ raw ++ "\n[END EXCEL]") ∧
      (output_format = "html" →
        (ReportFactory.get_formatter output_format).format raw =
          "<html><body><pre>" ++ raw ++ "</pre></body></html>") := by
  obtain ⟨raw, hraw⟩ := exists_ok_of_isOk h2
  refine ⟨raw, hraw, ?_, ?_, ?_, ?_, ?_⟩
  · simp [ReportSystem.generate_report, h1, hraw]
  · simp [ReportSystem.generate_report, h1, hraw]
  · intro h; subst h
    simp [ReportFactory.get_formatter, ReportFormatter.format]
  · intro h; subst h
    simp [ReportFactory.get_formatter, ReportFormatter.format]
  · intro h; subst h
    simp [ReportFactory.get_formatter, ReportFormatter.format]

/-- A small well-formed sales payload (amounts in cents). -/
def demoSalesData : ReportData :=
  ⟨some "Enero 2024", some [⟨"Laptop HP", 89999⟩, ⟨"Mouse Logitech", 2550⟩],
    none, none, none⟩

/-- Witness for C5: a sales report rendered to PDF. -/
theorem claim_C5_witness :
    ReportFactory.get_generator "sales" = some ContentGenerator.salesGenerator ∧
    (ContentGenerator.generate ContentGenerator.salesGenerator "T0"
      demoSalesData).isOk = true ∧
    ∃ raw : String,
      ContentGenerator.generate ContentGenerator.salesGenerator "T0"
        demoSalesData = Except.ok raw ∧
      ReportSystem.generate_report [] "sales" demoSalesData "pdf" "email"
          "T0" "T1" =
        ([] ++ [⟨"sales", "pdf", "email", "T1"⟩],
          Except.ok (some ((ReportFactory.get_formatter "pdf").format raw))) ∧
      (ReportSystem.generate_report [] "sales" demoSalesData "pdf" "email"
          "T0" "T1").1.length = List.length ([] : List ReportLogEntry) + 1 ∧
      (("pdf" : String) = "pdf" →
        (ReportFactory.get_formatter "pdf").format raw =
          "[PDF FORMAT]\n" ++ raw ++ "\n[END PDF]") ∧
      (("pdf" : String) = "excel" →
        (ReportFactory.get_formatter "pdf").format raw =
          "[EXCEL FORMAT]\n" ++ raw ++ "\n[END EXCEL]") ∧
      (("pdf" : String) = "html" →
        (ReportFactory.get_formatter "pdf").format raw =
          "<html><body><pre>" ++ raw ++ "</pre></body></html>") :=
  ⟨by decide, by decide,
    claim_C5_success_wraps_and_logs [] "sales" demoSalesData "pdf" "email"
      "T0" "T1" ContentGenerator.salesGenerator (by decide) (by decide)⟩

/-- C8: unrecognized output formats fall back to the HTML formatter
(hence the HTML envelope), unrecognized delivery methods fall back to
download delivery; both lookups are total functions. -/
theorem claim_C8_formatter_delivery_fallback (output_format delivery_method
    raw : String)
    (hf1 : output_format ≠ "pdf") (hf2 : output_format ≠ "excel")
    (hf3 : output_format ≠ "html")
    (hd1 : delivery_method ≠ "email") (hd2 : delivery_method ≠ "download")
    (hd3 : delivery_method ≠ "cloud") :
    ReportFactory.get_formatter output_format = ReportFormatter.htmlFormatter ∧
    (ReportFactory.get_formatter output_format).format raw =
      "<html><body><pre>" ++ raw ++ "</pre></body></html>" ∧
    ReportFactory.get_delivery delivery_method =
      DeliveryChannel.downloadDelivery := by
  refine ⟨?_, ?_, ?_⟩ <;>
    simp [ReportFactory.get_formatter, ReportFactory.get_delivery,
      ReportFormatter.format, hf1, hf2, hf3, hd1, hd2, hd3]

/-- Witness for C8 at unknown tags. -/
theorem claim_C8_witness :
    ("docx" : String) ≠ "pdf" ∧ ("docx" : String) ≠ "excel" ∧
    ("docx" : String) ≠ "html" ∧
    ("fax" : String) ≠ "email" ∧ ("fax" : String) ≠ "download" ∧
    ("fax" : String) ≠ "cloud" ∧
    (ReportFactory.get_formatter "docx" = ReportFormatter.htmlFormatter ∧
    (ReportFactory.get_formatter "docx").format "X" =
      "<html><body><pre>" ++ "X" ++ "</pre></body></html>" ∧
    ReportFactory.get_delivery "fax" = DeliveryChannel.downloadDelivery) :=
  ⟨by decide, by decide, by decide, by decide, by decide, by decide,
    claim_C8_formatter_delivery_fallback "docx" "fax" "X" (by decide)
      (by decide) (by decide) (by decide) (by decide) (by decide)⟩

/-- C10: a successful `generate_report` records the caller-supplied
format and delivery tags verbatim in the history entry; when the format
tag is unrecognized the returned document is nonetheless the HTML
envelope. -/
theorem claim_C10_history_records_tags_verbatim (hist : List ReportLogEntry)
    (report_type : String) (data : ReportData)
    (output_format delivery_method genNow logNow : String)
    (g : ContentGenerator)
    (h1 : ReportFactory.get_generator report_type = some g)
    (h2 : (g.generate genNow data).isOk = true) :
    ∃ doc : String,
      ReportSystem.generate_report hist report_type data output_format
          delivery_method genNow logNow =
        (hist ++ [⟨report_type, output_format, delivery_method, logNow⟩],
          Except.ok (some doc)) ∧
      (output_format ≠ "pdf" → output_format ≠ "excel" →
        output_format ≠ "html" →
        ∃ raw : String, g.generate genNow data = Except.ok raw ∧
          doc = "<html><body><pre>" ++ raw ++ "</pre></body></html>") := by
  obtain ⟨raw, hraw⟩ := exists_ok_of_isOk h2
  refine ⟨(ReportFactory.get_formatter output_format).format raw, ?_, ?_⟩
  · simp [ReportSystem.generate_report, h1, hraw]
  · intro hf1 hf2 hf3
    exact ⟨raw, hraw,
      by simp [ReportFactory.get_formatter, ReportFormatter.format,
        hf1, hf2, hf3]⟩

/-- Witness for C10: an unrecognized format tag `"docx"` is recorded
verbatim while the document is HTML-wrapped. -/
theorem claim_C10_witness :
    ReportFactory.get_generator "sales" = some ContentGenerator.salesGenerator ∧
    (ContentGenerator.generate ContentGenerator.salesGenerator "T0"
      demoSalesData).isOk = true ∧
    ∃ doc : String,
      ReportSystem.generate_report [] "sales" demoSalesData "docx" "pigeon"
          "T0" "T1" =
        ([] ++ [⟨"sales", "docx", "pigeon", "T1"⟩], Except.ok (some doc)) ∧
      (("docx" : String) ≠ "pdf" → ("docx" : String) ≠ "excel" →
        ("docx" : String) ≠ "html" →
        ∃ raw : String,
          ContentGenerator.generate ContentGenerator.salesGenerator "T0"
            demoSalesData = Except.ok raw ∧
          doc = "<html><body><pre>" ++ raw ++ "</pre></body></html>") :=
  ⟨by decide, by decide,
    claim_C10_history_records_tags_verbatim [] "sales" demoSalesData
      "docx" "pigeon" "T0" "T1" ContentGenerator.salesGenerator
      (by decide) (by decide)⟩

/-- Concatenation of a list of emitted lines, in list order. -/
def textOfLines : List String → String
  | [] => ""
  | s :: rest => s ++ textOfLines rest

theorem foldl_add_map {α : Type} (f : α → Nat) (l : List α) (n : Nat) :
    l.foldl (fun acc x => acc + f x) n = n + (l.map f).sum := by
  induction l generalizing n with
  | nil => simp
  | cons x l ih => simp [ih, Nat.add_assoc]

theorem foldl_append_lines {α : Type} (f : α → String) (l : List α) (s : String) :
    l.foldl (fun acc x => acc ++ f x) s = s ++ textOfLines (l.map f) := by
  induction l generalizing s with
  | nil => simp [textOfLines]
  | cons x l ih => simp [textOfLines, ih, String.append_assoc]

/-- C6: for every payload whose `sales` field is present, the sales
generator reports the sum of all sale amounts to two decimals, the
transaction count, and one detail line per sale in input order. -/
theorem claim_C6_sales_totals_and_order (now : String) (p : Option String)
    (it : Option (List InventoryItem)) (inc ex : Option Nat) (l : List Sale) :
    ∃ header : String,
      SalesGenerator.generate now ⟨p, some l, it, inc, ex⟩ =
        Except.ok (header ++ "Total de ventas: $" ++
          fmt2 ((l.map Sale.amount).sum) ++ "\n" ++
          "Número de transacciones: " ++ toString l.length ++ "\n\n" ++
          "Detalle de ventas:\n" ++ dashLine60 ++ "\n" ++
          textOfLines (l.map saleLine)) := by
  cases p with
  | none =>
    refine ⟨eqLine60 ++ "\n" ++ "           REPORTE DE VENTAS\n" ++
      eqLine60 ++ "\n" ++ "Fecha de generación: " ++ now ++ "\n\n", ?_⟩
    simp only [SalesGenerator.generate]
    rw [foldl_append_lines, foldl_add_map, Nat.zero_add]
  | some per =>
    refine ⟨(eqLine60 ++ "\n" ++ "           REPORTE DE VENTAS\n" ++
      eqLine60 ++ "\n" ++ "Fecha de generación: " ++ now ++ "\n\n") ++
      "Periodo: " ++ per ++ "\n", ?_⟩
    simp only [SalesGenerator.generate]
    rw [foldl_append_lines, foldl_add_map, Nat.zero_add]

/-- C7: for every payload whose `items` field is present, the inventory
generator reports total units as the sum of the quantities and the
category count as the number of distinct labels after defaulting missing
categories to "General". -/
theorem claim_C7_inventory_totals (now : String) (p : Option String)
    (sl : Option (List Sale)) (inc ex : Option Nat) (l : List InventoryItem) :
    InventoryGenerator.generate now ⟨p, sl, some l, inc, ex⟩ =
      Except.ok (eqLine60 ++ "\n" ++ "           REPORTE DE INVENTARIO\n" ++
        eqLine60 ++ "\n" ++ "Fecha de generación: " ++ now ++ "\n\n" ++
        "Total de productos: " ++
        toString ((l.map InventoryItem.quantity).sum) ++ "\n" ++
        "Categorías: " ++
        toString ((l.map fun i => i.category.getD "General").dedup.length) ++
        "\n\n" ++ "Inventario actual:\n" ++ dashLine60 ++ "\n" ++
        textOfLines (l.map itemLine)) := by
  simp only [InventoryGenerator.generate]
  rw [foldl_append_lines, foldl_add_map, Nat.zero_add, List.card_toFinset]

end Reporting
